import Mathlib

/-!
Shallow embedding of the `Travel` screen (BoundarySelector) from
`src/frontend/app/(tabs)/travel/index.jsx`.

The screen's React state hooks become the fields of `TravelState`; each
handler becomes a Lean function from state (plus the environment's
response, for the asynchronous location calls) to a new state together
with the list of externally visible effects it performs (permission
request, position fetch, navigation, alert, map animation, console
logging).  Coordinates are modelled with exact rationals, since the
screen performs no arithmetic on them beyond storing and forwarding.
-/

/-- A tapped map coordinate, as delivered by the map's press event. -/
structure Coordinate where
  latitude : ℚ
  longitude : ℚ
deriving DecidableEq, Repr

/-- A map viewport region: center plus zoom extent. -/
structure Region where
  latitude : ℚ
  longitude : ℚ
  latitudeDelta : ℚ
  longitudeDelta : ℚ
deriving DecidableEq, Repr

/-- The component state: the six `useState` hooks of the `Travel` component. -/
structure TravelState where
  region : Option Region
  polygonPoints : List Coordinate
  isSelecting : Bool
  loading : Bool
  loadingLocation : Bool
  errorMsg : Option String
deriving DecidableEq, Repr

/-- The initial hook values: `useState(null)`, `useState([])`, `useState(true)`,
`useState(true)`, `useState(true)`, `useState(null)`. -/
def initialState : TravelState :=
  { region := none
    polygonPoints := []
    isSelecting := true
    loading := true
    loadingLocation := true
    errorMsg := none }

/-- Accuracy levels of the location API (`Location.Accuracy`). The source
only ever passes `Highest`. -/
inductive Accuracy where
  | lowest
  | low
  | balanced
  | high
  | highest
  | bestForNavigation
deriving DecidableEq, Repr

/-- Options passed to `Location.getCurrentPositionAsync`: the accuracy and
the optional `maximumAge` staleness tolerance in milliseconds (absent when
the call site passes no `maximumAge`). -/
structure FetchOptions where
  accuracy : Accuracy
  maximumAge : Option Nat
deriving DecidableEq, Repr

/-- Externally visible actions a handler performs, in program order. -/
inductive Effect where
  | requestForegroundPermissions
  | getCurrentPosition (opts : FetchOptions)
  | navigate (pathname : String) (polygonData : String)
  | alert (msg : String)
  | animateToRegion (r : Region) (durationMs : Nat)
  | consoleError (tag : String)
deriving DecidableEq, Repr

/-- Whether an effect is a navigation (`router.push`). -/
def Effect.isNavigate : Effect → Bool
  | Effect.navigate _ _ => true
  | _ => false

/-- Result of the location permission request, as the code tests it
(`status !== 'granted'`). -/
inductive PermissionStatus where
  | granted
  | denied
deriving DecidableEq, Repr

/-- Outcome of an asynchronous `getCurrentPositionAsync` call: the resolved
coordinates, or a thrown error. -/
inductive FetchResult where
  | ok (loc : Coordinate)
  | err
deriving DecidableEq, Repr

/-- Serialization of one point as `JSON.stringify` renders it:
an object with the `latitude` and `longitude` keys in insertion order.
Exact JavaScript float formatting is not modelled; rationals are rendered
with their standard textual form, which is injective. -/
def stringifyCoord (c : Coordinate) : String :=
  "\x7b\"latitude\":" ++ toString c.latitude ++ ",\"longitude\":" ++ toString c.longitude ++ "\x7d"

/-- `JSON.stringify(polygonPoints)`: the points in list order, comma
separated, in square brackets. -/
def jsonStringifyPoints (pts : List Coordinate) : String :=
  "[" ++ String.intercalate "," (pts.map stringifyCoord) ++ "]"

/-- The hardcoded fallback region from the `catch` branch of the mount
effect. -/
def defaultRegion : Region :=
  { latitude := 37.78825
    longitude := -122.4324
    latitudeDelta := 0.015
    longitudeDelta := 0.0121 }

/-- The async mount effect (the spec's `initialize()`): sets the loading
flags, requests foreground permission; on denial records the error message
and returns (the `finally` block still clears both loading flags); on
grant fetches the position with `Highest` accuracy and `maximumAge: 10000`,
setting the region on success, or recording an error message and falling
back to `defaultRegion` when the fetch throws.  `perm` and `fetch` are the
environment's responses; `fetch` is consulted only when permission is
granted, since the code never reaches the fetch otherwise. -/
def initLocation (s : TravelState) (perm : PermissionStatus) (fetch : FetchResult) :
    TravelState × List Effect :=
  let s1 := { s with loading := true, loadingLocation := true }
  match perm with
  | PermissionStatus.denied =>
      ({ s1 with errorMsg := some "Permission to access location was denied"
                 loadingLocation := false
                 loading := false },
       [Effect.requestForegroundPermissions])
  | PermissionStatus.granted =>
      match fetch with
      | FetchResult.ok loc =>
          ({ s1 with region := some ⟨loc.latitude, loc.longitude, 0.005, 0.005⟩
                     loadingLocation := false
                     loading := false },
           [Effect.requestForegroundPermissions,
            Effect.getCurrentPosition ⟨Accuracy.highest, some 10000⟩])
      | FetchResult.err =>
          ({ s1 with errorMsg := some "Could not fetch location. Please check your GPS settings."
                     region := some defaultRegion
                     loadingLocation := false
                     loading := false },
           [Effect.requestForegroundPermissions,
            Effect.getCurrentPosition ⟨Accuracy.highest, some 10000⟩,
            Effect.consoleError "Location error:"])

/-- `handleMapPress`: if `isSelecting`, append the tapped coordinate to
`polygonPoints` (`[...polygonPoints, coordinate]`); otherwise do nothing. -/
def handleMapPress (s : TravelState) (coordinate : Coordinate) : TravelState :=
  if s.isSelecting then { s with polygonPoints := s.polygonPoints ++ [coordinate] } else s

/-- `resetSelection`: `setPolygonPoints([]); setIsSelecting(true)`. -/
def resetSelection (s : TravelState) : TravelState :=
  { s with polygonPoints := [], isSelecting := true }

/-- `undoLastPoint`: when `polygonPoints.length > 0`, replace the list by
`polygonPoints.slice(0, -1)`, i.e. all elements but the last. -/
def undoLastPoint (s : TravelState) : TravelState :=
  if 0 < s.polygonPoints.length
  then { s with polygonPoints := s.polygonPoints.dropLast }
  else s

/-- `completePolygon`: with at least 3 points, `router.push` to the route
screen carrying the serialized points; otherwise an alert.  State is not
modified. -/
def completePolygon (s : TravelState) : TravelState × List Effect :=
  if 3 ≤ s.polygonPoints.length then
    (s, [Effect.navigate "/(tabs)/travel/routescreen" (jsonStringifyPoints s.polygonPoints)])
  else
    (s, [Effect.alert "Please select at least 3 points to form a valid area"])

/-- `centerOnLocation`: guarded by `if (region)`; fetches the position with
`Highest` accuracy and no `maximumAge`, then animates the map to the new
region over 1000 ms; on a thrown fetch it alerts and logs.  No state field
is written in any branch. -/
def centerOnLocation (s : TravelState) (fetch : FetchResult) : TravelState × List Effect :=
  match s.region with
  | none => (s, [])
  | some _ =>
      match fetch with
      | FetchResult.ok loc =>
          (s, [Effect.getCurrentPosition ⟨Accuracy.highest, none⟩,
               Effect.animateToRegion ⟨loc.latitude, loc.longitude, 0.005, 0.005⟩ 1000])
      | FetchResult.err =>
          (s, [Effect.getCurrentPosition ⟨Accuracy.highest, none⟩,
               Effect.alert "Could not get current location",
               Effect.consoleError "Location error:"])

/-- The retry button's `onPress`:
`setErrorMsg(null); setLoading(true); setLoadingLocation(true)`.
Nothing else happens — the mount effect has an empty dependency list, so
it is not re-run by these state updates. -/
def retryPress (s : TravelState) : TravelState :=
  { s with errorMsg := none, loading := true, loadingLocation := true }

/-- Which of the three returned views the component renders:
`if (loading)` the loading view, `if (errorMsg && !region)` the error
view, otherwise the main map view. -/
inductive View where
  | loadingView
  | errorView
  | mainView
deriving DecidableEq, Repr

/-- The component's render dispatch, from the three early returns. -/
def render (s : TravelState) : View :=
  if s.loading then View.loadingView
  else if s.errorMsg.isSome && s.region.isNone then View.errorView
  else View.mainView

/-- The display condition of the Complete button:
`isSelecting && polygonPoints.length >= 3`. -/
def readyToComplete (s : TravelState) : Bool :=
  s.isSelecting && decide (3 ≤ s.polygonPoints.length)

/-- The user-interaction events the screen can receive, each carrying the
environment responses its handler consumes. -/
inductive Event where
  | mount (perm : PermissionStatus) (fetch : FetchResult)
  | mapPress (c : Coordinate)
  | undo
  | reset
  | complete
  | retry
  | recenter (fetch : FetchResult)
deriving DecidableEq, Repr

/-- One dispatch of an event, honouring which view hosts each control:
map taps, Undo, Reset, Complete and the recenter button exist only on the
main view (Undo and Reset are additionally disabled while no point is
placed, and Complete is only rendered while `readyToComplete`); the Retry
button exists only on the error view. -/
def step (s : TravelState) : Event → TravelState × List Effect
  | Event.mount perm fetch => initLocation s perm fetch
  | Event.mapPress c =>
      if render s = View.mainView then (handleMapPress s c, []) else (s, [])
  | Event.undo =>
      if render s = View.mainView ∧ s.polygonPoints.length ≠ 0
      then (undoLastPoint s, []) else (s, [])
  | Event.reset =>
      if render s = View.mainView ∧ s.polygonPoints.length ≠ 0
      then (resetSelection s, []) else (s, [])
  | Event.complete =>
      if render s = View.mainView ∧ readyToComplete s = true
      then completePolygon s else (s, [])
  | Event.retry =>
      if render s = View.errorView then (retryPress s, []) else (s, [])
  | Event.recenter fetch =>
      if render s = View.mainView then centerOnLocation s fetch else (s, [])

/-- The state component of one dispatch. -/
def stepState (s : TravelState) (e : Event) : TravelState :=
  (step s e).1

/-- The state after a sequence of events from the mounted screen's initial
state. -/
def runEvents (es : List Event) : TravelState :=
  es.foldl stepState initialState

/-! ### Helper lemmas (shared) -/

/-- A map press never changes the `isSelecting` flag. -/
theorem handleMapPress_isSelecting (s : TravelState) (c : Coordinate) :
    (handleMapPress s c).isSelecting = s.isSelecting := by
  unfold handleMapPress
  split <;> rfl

/-- While selecting, a fold of map presses appends the taps in order. -/
theorem foldl_handleMapPress_points (taps : List Coordinate) :
    ∀ s : TravelState, s.isSelecting = true →
      (taps.foldl handleMapPress s).polygonPoints = s.polygonPoints ++ taps := by
  induction taps with
  | nil => intro s _; simp
  | cons c rest ih =>
      intro s hs
      simp only [List.foldl_cons]
      rw [ih (handleMapPress s c) (by rw [handleMapPress_isSelecting]; exact hs)]
      simp [handleMapPress, hs]

/-- `completePolygon` never modifies the state. -/
theorem completePolygon_fst (s : TravelState) : (completePolygon s).1 = s := by
  unfold completePolygon
  split <;> rfl

/-- `centerOnLocation` never modifies the state. -/
theorem centerOnLocation_fst (s : TravelState) (fetch : FetchResult) :
    (centerOnLocation s fetch).1 = s := by
  unfold centerOnLocation
  split
  · rfl
  · split <;> rfl

/-- The mount effect never changes the `isSelecting` flag. -/
theorem initLocation_isSelecting (s : TravelState) (perm : PermissionStatus)
    (fetch : FetchResult) : ((initLocation s perm fetch).1).isSelecting = s.isSelecting := by
  unfold initLocation
  cases perm with
  | denied => rfl
  | granted => cases fetch <;> rfl

/-- One dispatch never turns `isSelecting` off. -/
theorem stepState_isSelecting (s : TravelState) (e : Event) :
    s.isSelecting = true → (stepState s e).isSelecting = true := by
  intro hs
  cases e with
  | mount perm fetch =>
      simp only [stepState, step]
      rw [initLocation_isSelecting]
      exact hs
  | mapPress c =>
      simp only [stepState, step]
      split
      · rw [handleMapPress_isSelecting]; exact hs
      · exact hs
  | undo =>
      simp only [stepState, step]
      split
      · unfold undoLastPoint; split <;> exact hs
      · exact hs
  | reset =>
      simp only [stepState, step]
      split
      · rfl
      · exact hs
  | complete =>
      simp only [stepState, step]
      split
      · rw [completePolygon_fst]; exact hs
      · exact hs
  | retry =>
      simp only [stepState, step]
      split
      · exact hs
      · exact hs
  | recenter fetch =>
      simp only [stepState, step]
      split
      · rw [centerOnLocation_fst]; exact hs
      · exact hs

/-- A reachable state always shows the loading view, has an error message,
or has a region: whenever the main view is reached, a region exists. -/
def regionReady (s : TravelState) : Prop :=
  s.loading = true ∨ s.errorMsg.isSome = true ∨ s.region.isSome = true

/-- One dispatch preserves `regionReady`. -/
theorem stepState_regionReady (s : TravelState) (e : Event) :
    regionReady s → regionReady (stepState s e) := by
  intro hs
  cases e with
  | mount perm fetch =>
      cases perm with
      | denied => right; left; rfl
      | granted => cases fetch with
        | ok loc => right; right; rfl
        | err => right; right; rfl
  | mapPress c =>
      simp only [stepState, step]
      split
      · unfold handleMapPress
        split
        · simpa [regionReady] using hs
        · exact hs
      · exact hs
  | undo =>
      simp only [stepState, step]
      split
      · unfold undoLastPoint
        split
        · simpa [regionReady] using hs
        · exact hs
      · exact hs
  | reset =>
      simp only [stepState, step]
      split
      · simpa [regionReady, resetSelection] using hs
      · exact hs
  | complete =>
      simp only [stepState, step]
      split
      · rw [completePolygon_fst]; exact hs
      · exact hs
  | retry =>
      simp only [stepState, step]
      split
      · left; rfl
      · exact hs
  | recenter fetch =>
      simp only [stepState, step]
      split
      · rw [centerOnLocation_fst]; exact hs
      · exact hs

/-- Every reachable state satisfies `regionReady`. -/
theorem runEvents_regionReady (es : List Event) : regionReady (runEvents es) := by
  have h : ∀ s, regionReady s → regionReady (es.foldl stepState s) := by
    induction es with
    | nil => intro s hs; simpa using hs
    | cons e rest ih => intro s hs; exact ih _ (stepState_regionReady s e hs)
  exact h initialState (Or.inl rfl)

/-- Characterization of when the main view is rendered. -/
theorem render_mainView_iff (s : TravelState) :
    render s = View.mainView ↔
      (s.loading = false ∧ (s.errorMsg.isSome && s.region.isNone) = false) := by
  unfold render
  by_cases h1 : s.loading = true <;>
    by_cases h2 : (s.errorMsg.isSome && s.region.isNone) = true <;>
      simp [h1, h2]

/-- In every reachable state showing the main map view, a region exists. -/
theorem mainView_region_isSome (es : List Event)
    (h : render (runEvents es) = View.mainView) :
    (runEvents es).region.isSome = true := by
  rcases (render_mainView_iff _).1 h with ⟨hload, hview⟩
  rcases runEvents_regionReady es with hl | he | hreg
  · rw [hl] at hload; exact absurd hload (by simp)
  · rw [he] at hview
    simp only [Bool.true_and] at hview
    cases hc : (runEvents es).region with
    | none => rw [hc] at hview; simp at hview
    | some r => simp [hc]
  · exact hreg

/-! ### Claim theorems -/

/-- Claim C1: `completePolygon` navigates to the route-planning screen with
the serialized point list iff `polygonPoints.length >= 3`; with 0, 1 or 2
points it performs no navigation and raises a user-visible alert; the
count is the sole gate — the behaviour is fully determined by the point
list alone, with no convexity, self-intersection, area or winding check. -/
theorem completePolygon_gate (s : TravelState) :
    completePolygon s =
      (s, if 3 ≤ s.polygonPoints.length
          then [Effect.navigate "/(tabs)/travel/routescreen"
                  (jsonStringifyPoints s.polygonPoints)]
          else [Effect.alert "Please select at least 3 points to form a valid area"]) ∧
    (((completePolygon s).2.any Effect.isNavigate) = true ↔ 3 ≤ s.polygonPoints.length) := by
  by_cases h : 3 ≤ s.polygonPoints.length <;>
    simp [completePolygon, h, Effect.isNavigate]

/-- Witness for C1: a degenerate polygon of three identical points still
navigates (count is the sole validation), and two points only alert. -/
theorem completePolygon_gate_witness :
    completePolygon { initialState with polygonPoints := [⟨0, 0⟩, ⟨0, 0⟩, ⟨0, 0⟩] }
      = ({ initialState with polygonPoints := [⟨0, 0⟩, ⟨0, 0⟩, ⟨0, 0⟩] },
         [Effect.navigate "/(tabs)/travel/routescreen"
            (jsonStringifyPoints [⟨0, 0⟩, ⟨0, 0⟩, ⟨0, 0⟩])]) ∧
    completePolygon { initialState with polygonPoints := [⟨0, 0⟩, ⟨0, 1⟩] }
      = ({ initialState with polygonPoints := [⟨0, 0⟩, ⟨0, 1⟩] },
         [Effect.alert "Please select at least 3 points to form a valid area"]) := by
  constructor
  · have h := (completePolygon_gate { initialState with
      polygonPoints := [⟨0, 0⟩, ⟨0, 0⟩, ⟨0, 0⟩] }).1
    simpa using h
  · have h := (completePolygon_gate { initialState with
      polygonPoints := [⟨0, 0⟩, ⟨0, 1⟩] }).1
    simpa using h

/-- Claim C2: while `isSelecting` is true, a sequence of N taps appends the
tapped coordinates in order with no deduplication, so the point count grows
by exactly N; while `isSelecting` is false, a tap leaves the state
unchanged. -/
theorem handleMapPress_taps (s : TravelState) (taps : List Coordinate) :
    (s.isSelecting = true →
        (taps.foldl handleMapPress s).polygonPoints = s.polygonPoints ++ taps ∧
        (taps.foldl handleMapPress s).polygonPoints.length
          = s.polygonPoints.length + taps.length) ∧
    (s.isSelecting = false → ∀ c, handleMapPress s c = s) := by
  constructor
  · intro hs
    have h := foldl_handleMapPress_points taps s hs
    exact ⟨h, by rw [h, List.length_append]⟩
  · intro hs c
    simp [handleMapPress, hs]

/-- Witness for C2: three taps, two of them the identical coordinate, all
appended — the count is 3 and nothing is dropped or deduplicated. -/
theorem handleMapPress_taps_witness :
    (([⟨1, 2⟩, ⟨1, 2⟩, ⟨3, 4⟩] : List Coordinate).foldl handleMapPress
        initialState).polygonPoints = [⟨1, 2⟩, ⟨1, 2⟩, ⟨3, 4⟩] ∧
    (([⟨1, 2⟩, ⟨1, 2⟩, ⟨3, 4⟩] : List Coordinate).foldl handleMapPress
        initialState).polygonPoints.length = 3 := by
  have h := (handleMapPress_taps initialState [⟨1, 2⟩, ⟨1, 2⟩, ⟨3, 4⟩]).1 rfl
  exact ⟨by simpa using h.1, by simpa using h.2⟩

/-- Claim C3: tapping exactly A, B, C in that order from an empty selection
and then completing navigates to the route screen carrying the
serialization of `[A, B, C]` in that insertion order. -/
theorem completeAfterThreeTaps (s : TravelState) (A B C : Coordinate)
    (hsel : s.isSelecting = true) (hpts : s.polygonPoints = []) :
    completePolygon (handleMapPress (handleMapPress (handleMapPress s A) B) C) =
      (handleMapPress (handleMapPress (handleMapPress s A) B) C,
       [Effect.navigate "/(tabs)/travel/routescreen" (jsonStringifyPoints [A, B, C])]) := by
  simp [handleMapPress, hsel, hpts, completePolygon]

/-- Witness for C3 at the freshly mounted state with three concrete taps. -/
theorem completeAfterThreeTaps_witness :
    completePolygon
        (handleMapPress (handleMapPress (handleMapPress initialState ⟨0, 0⟩) ⟨0, 1⟩) ⟨1, 0⟩)
      = (handleMapPress (handleMapPress (handleMapPress initialState ⟨0, 0⟩) ⟨0, 1⟩) ⟨1, 0⟩,
         [Effect.navigate "/(tabs)/travel/routescreen"
            (jsonStringifyPoints [⟨0, 0⟩, ⟨0, 1⟩, ⟨1, 0⟩])]) :=
  completeAfterThreeTaps initialState ⟨0, 0⟩ ⟨0, 1⟩ ⟨1, 0⟩ rfl rfl

/-- Claim C7: from every state, `resetSelection` leaves an empty point list
and `isSelecting` true. -/
theorem resetSelection_clears (s : TravelState) :
    (resetSelection s).polygonPoints = [] ∧ (resetSelection s).isSelecting = true :=
  ⟨rfl, rfl⟩

/-- Claim C8: `undoLastPoint` on a non-empty list yields the original list
without its final element, and on an empty list changes nothing. -/
theorem undoLastPoint_spec (s : TravelState) :
    (s.polygonPoints = [] → undoLastPoint s = s) ∧
    (∀ xs x, s.polygonPoints = xs ++ [x] →
        undoLastPoint s = { s with polygonPoints := xs }) := by
  constructor
  · intro h
    simp [undoLastPoint, h]
  · intro xs x h
    simp [undoLastPoint, h]

/-- Witness for C8: no-op on the empty list; removal of exactly the last
of two points. -/
theorem undoLastPoint_spec_witness :
    undoLastPoint initialState = initialState ∧
    undoLastPoint { initialState with polygonPoints := [⟨1, 2⟩, ⟨3, 4⟩] }
      = { initialState with polygonPoints := [⟨1, 2⟩] } := by
  constructor
  · exact (undoLastPoint_spec initialState).1 rfl
  · exact (undoLastPoint_spec { initialState with
      polygonPoints := [⟨1, 2⟩, ⟨3, 4⟩] }).2 [⟨1, 2⟩] ⟨3, 4⟩ rfl

/-- Claim C4 (refuted by the code): from the error state after a permission
denial, pressing Retry performs no external effect at all — in particular
it issues neither a new permission request nor a location fetch, because
the mount effect has an empty dependency list and is never re-run; the
handler only clears the error message and raises the loading flags, so the
screen lands on the loading view with nothing in flight. -/
theorem retryPress_noReinit :
    render (initLocation initialState PermissionStatus.denied FetchResult.err).1
      = View.errorView ∧
    (step (initLocation initialState PermissionStatus.denied FetchResult.err).1
        Event.retry).2 = [] ∧
    (step (initLocation initialState PermissionStatus.denied FetchResult.err).1
        Event.retry).1
      = { (initLocation initialState PermissionStatus.denied FetchResult.err).1 with
            errorMsg := none, loading := true, loadingLocation := true } ∧
    render (step (initLocation initialState PermissionStatus.denied FetchResult.err).1
        Event.retry).1 = View.loadingView := by
  refine ⟨rfl, ?_, ?_, ?_⟩ <;>
    simp [step, render, retryPress, initLocation, initialState]

/-- Claim C5: when the permission request is denied, the mount effect
records the denial message, establishes no region, renders the error view
rather than the map, and a map tap in that state changes nothing and
produces no effect, so no point can be collected. -/
theorem permissionDenied_blocksMap (fetch : FetchResult) :
    (initLocation initialState PermissionStatus.denied fetch).1.errorMsg
      = some "Permission to access location was denied" ∧
    (initLocation initialState PermissionStatus.denied fetch).1.region = none ∧
    render (initLocation initialState PermissionStatus.denied fetch).1 = View.errorView ∧
    (initLocation initialState PermissionStatus.denied fetch).1.polygonPoints = [] ∧
    (∀ c, step (initLocation initialState PermissionStatus.denied fetch).1 (Event.mapPress c)
        = ((initLocation initialState PermissionStatus.denied fetch).1, [])) := by
  refine ⟨rfl, rfl, rfl, rfl, ?_⟩
  intro c
  simp [step, render, initLocation, initialState]

/-- Claim C6: when the initial fetch throws, the mount effect falls back to
the hardcoded default region 37.78825 / -122.4324 with deltas
0.015 / 0.0121, records the fetch-failure message, and the component still
renders the main map view rather than blocking. -/
theorem fetchFailure_defaultRegion :
    (initLocation initialState PermissionStatus.granted FetchResult.err).1.region
      = some { latitude := 37.78825, longitude := -122.4324,
               latitudeDelta := 0.015, longitudeDelta := 0.0121 } ∧
    (initLocation initialState PermissionStatus.granted FetchResult.err).1.errorMsg
      = some "Could not fetch location. Please check your GPS settings." ∧
    render (initLocation initialState PermissionStatus.granted FetchResult.err).1
      = View.mainView :=
  ⟨rfl, rfl, rfl⟩

/-- Claim C9: in every reachable state that renders the main view (the only
view hosting the recenter control), `centerOnLocation` fetches the position
with `Highest` accuracy and no `maximumAge`, then animates the viewport to
the fetched location over 1000 ms; when the fetch throws it alerts and
logs; in both branches every state field is left unchanged. -/
theorem centerOnLocation_reach (es : List Event)
    (h : render (runEvents es) = View.mainView) :
    (∀ loc, centerOnLocation (runEvents es) (FetchResult.ok loc)
        = (runEvents es,
           [Effect.getCurrentPosition ⟨Accuracy.highest, none⟩,
            Effect.animateToRegion ⟨loc.latitude, loc.longitude, 0.005, 0.005⟩ 1000])) ∧
    centerOnLocation (runEvents es) FetchResult.err
        = (runEvents es,
           [Effect.getCurrentPosition ⟨Accuracy.highest, none⟩,
            Effect.alert "Could not get current location",
            Effect.consoleError "Location error:"]) := by
  have hreg := mainView_region_isSome es h
  rcases Option.isSome_iff_exists.1 hreg with ⟨r, hr⟩
  constructor
  · intro loc
    unfold centerOnLocation
    rw [hr]
  · unfold centerOnLocation
    rw [hr]

/-- Witness for C9 after a successful mount at a concrete position. -/
theorem centerOnLocation_reach_witness :
    centerOnLocation
        (runEvents [Event.mount PermissionStatus.granted (FetchResult.ok ⟨1, 2⟩)])
        FetchResult.err
      = (runEvents [Event.mount PermissionStatus.granted (FetchResult.ok ⟨1, 2⟩)],
         [Effect.getCurrentPosition ⟨Accuracy.highest, none⟩,
          Effect.alert "Could not get current location",
          Effect.consoleError "Location error:"]) :=
  (centerOnLocation_reach [Event.mount PermissionStatus.granted (FetchResult.ok ⟨1, 2⟩)]
    rfl).2

/-- Claim C10: `isSelecting` starts true and no operation ever turns it
off, so after every event sequence it is still true; hence the guard in
`handleMapPress` always admits the tap, and the Complete button's display
condition reduces to the point count alone. -/
theorem isSelecting_always_true (es : List Event) :
    initialState.isSelecting = true ∧
    (runEvents es).isSelecting = true ∧
    (∀ c, handleMapPress (runEvents es) c
        = { runEvents es with polygonPoints := (runEvents es).polygonPoints ++ [c] }) ∧
    readyToComplete (runEvents es) = decide (3 ≤ (runEvents es).polygonPoints.length) := by
  have hsel : (runEvents es).isSelecting = true := by
    have h : ∀ s : TravelState, s.isSelecting = true →
        (es.foldl stepState s).isSelecting = true := by
      induction es with
      | nil => intro s hs; simpa using hs
      | cons e rest ih => intro s hs; exact ih _ (stepState_isSelecting s e hs)
    exact h initialState rfl
  refine ⟨rfl, hsel, ?_, ?_⟩
  · intro c
    simp [handleMapPress, hsel]
  · simp [readyToComplete, hsel]
